import Mathlib

/-!
Verification of the North Sails social-media scanner core (app.py).

The Python source is shallowly embedded:
* `VKRateLimiter.can_make_request` becomes a pure state-passing function over
  one operation key (the per-key dictionaries are independent), with time as ℚ
  seconds.
* the `vk_rate_limit` decorator's retry loop becomes a fuel recursion over the
  loop variable `attempt`, with the limiter's answers and the wrapped
  operation's outcomes supplied as oracles indexed by check / invocation
  number.
* `BackupManager.add_scan_result`'s backup id keeps only the part relevant to
  uniqueness: `int(datetime.now().timestamp())` (truncation = floor for the
  nonnegative Unix timestamps involved).
* `NotionClient.safe_update_with_backup` becomes the trace of events it
  performs, given which invocations of `update_func` raise.
* scoring (`calculate_brand_relevance`, the engagement / bonus / final-score
  lines of the two scan pipelines) becomes arithmetic over ℕ and ℚ; Python's
  `int // int` is ℕ division, `float // int` is `Int.floor` of the quotient.
* keyword discovery (`extract_keywords_from_content`) is embedded with an
  explicit tokenizer for the regex pipeline restricted to the ASCII and
  Cyrillic scripts the code targets, `Counter` as first-seen-ordered
  (item, count) pairs, and Python's stable descending sort as a stable
  insertion sort.
-/

/-! ### Characters and strings: `lower()`, the regex character classes, `in` -/

/-- Python `str.lower()` on one character, covering the scripts the scanner
handles: ASCII `A`-`Z` and Cyrillic `А`-`Я` map down by 0x20, `Ё` maps to `ё`;
everything else is unchanged. -/
def pyLowerChar (c : Char) : Char :=
  if 'A' ≤ c ∧ c ≤ 'Z' then Char.ofNat (c.toNat + 32)
  else if 'А' ≤ c ∧ c ≤ 'Я' then Char.ofNat (c.toNat + 32)
  else if c = 'Ё' then 'ё'
  else c

/-- Python `str.lower()` over a string, as a character list. -/
def pyLower (l : List Char) : List Char := l.map pyLowerChar

/-- Whitespace as matched by the regex class `\s` and `str.split()`. -/
def pyIsSpace (c : Char) : Bool :=
  c = ' ' || c = '\t' || c = '\n' || c = '\r' || c = '\x0b' || c = '\x0c'

/-- The Cyrillic block `Ѐ`-`ӿ` used by the scanner's regexes. -/
def isCyr (c : Char) : Bool :=
  0x400 ≤ c.toNat && c.toNat ≤ 0x4FF

/-- The regex class `\w` (word characters), restricted to the ASCII and
Cyrillic repertoire the scanner works with. -/
def pyIsWord (c : Char) : Bool :=
  c.isAlphanum || c = '_' || isCyr c

/-- Check that `n` begins the list `h` (used to define substring containment). -/
def listStarts : List Char → List Char → Bool
  | [], _ => true
  | _ :: _, [] => false
  | a :: as, b :: bs => a == b && listStarts as bs

/-- Check that `n` occurs contiguously somewhere in `h`. -/
def containsSub (n : List Char) : List Char → Bool
  | [] => listStarts n []
  | c :: t => listStarts n (c :: t) || containsSub n t

/-- Python's substring test `needle in hay`. -/
def strContains (hay needle : String) : Bool :=
  containsSub needle.toList hay.toList

/-! ### Rate limiter: `VKRateLimiter.can_make_request`

The limiter keeps three per-method dictionaries; entries for distinct keys
never interact, so the state for one operation key is modelled as a record of
that key's entries (`none` = key absent). Time is ℚ seconds. -/

/-- State of `VKRateLimiter` for one method key: `last_request[key]`,
`request_count[key]` (0 when absent, matching `.get(key, 0)`-style reads after
a reset), and `reset_time[key]`. -/
structure VKRateLimiterKey where
  last_request : Option ℚ
  request_count : ℕ
  reset_time : Option ℚ
deriving DecidableEq

/-- `VKRateLimiter.can_make_request`: reset the per-minute counter when the
window is older than 60 s (or absent), then deny with wait 60 when the counter
is at the quota 100, then deny with the remaining gap when less than 0.35 s
passed since the last request, else permit. Returns the updated state and the
`(can_request, wait_time)` pair. -/
def can_make_request (st : VKRateLimiterKey) (now : ℚ) : VKRateLimiterKey × Bool × ℚ :=
  let st1 :=
    match st.reset_time with
    | none => { st with request_count := 0, reset_time := some now }
    | some rt =>
      if 60 < now - rt then { st with request_count := 0, reset_time := some now }
      else st
  if 100 ≤ st1.request_count then (st1, false, 60)
  else
    match st1.last_request with
    | some lr =>
      if now - lr < 7/20 then (st1, false, 7/20 - (now - lr))
      else (st1, true, 0)
    | none => (st1, true, 0)

/-- The per-minute quota for the key is reached inside the current (not yet
expired) one-minute window. -/
def quota_reached (st : VKRateLimiterKey) (now : ℚ) : Prop :=
  match st.reset_time with
  | some rt => now - rt ≤ 60 ∧ 100 ≤ st.request_count
  | none => False

/-- Less than 0.35 s have elapsed since the last recorded call for the key. -/
def spacing_blocked (st : VKRateLimiterKey) (now : ℚ) : Prop :=
  match st.last_request with
  | some lr => now - lr < 7/20
  | none => False

/-- The remaining gap to the 0.35 s spacing floor. -/
def spacing_wait (st : VKRateLimiterKey) (now : ℚ) : ℚ :=
  match st.last_request with
  | some lr => 7/20 - (now - lr)
  | none => 0

/-! ### Retrying caller: the `vk_rate_limit` decorator

The wrapper's loop `for attempt in range(max_retries)` either (a) finds the
limiter denying and `continue`s, (b) invokes the wrapped function and returns
its result, or (c) catches an error, classifies it, and either retries,
`continue`s, or re-raises. Falling off the loop returns `None`. The limiter's
verdict for the check performed at loop index `attempt` is the oracle
`limiter attempt`; the outcome of the `n`-th invocation of the wrapped
function is the oracle `op n`. Sleeps are irrelevant to the claims and are
dropped. -/

/-- How the decorator classifies a caught exception: by substring tests on the
error text (`rate limit`/`429`/`too many requests`, then `502`/`503`, then
anything else). -/
inductive ErrClass where
  | rateLimit
  | serverErr
  | other
deriving DecidableEq

/-- Outcome of one invocation of the wrapped function. -/
inductive OpOutcome (α : Type) where
  | ok (a : α)
  | err (c : ErrClass)
deriving DecidableEq

/-- What the wrapper does for its caller: return the function's result, fall
off the loop and return `None`, or re-raise the caught error. -/
inductive WrapResult (α : Type) where
  | ret (a : α)
  | retNone
  | raised (c : ErrClass)
deriving DecidableEq

/-- One pass of the decorator's `for attempt in range(max_retries)` loop.
`fuel` is the number of loop iterations left, `attempt` the loop variable,
`n` the number of invocations of the wrapped function performed so far.
Returns the wrapper's result together with the total invocation count. -/
def vkWrapGo (maxRetries : ℕ) (limiter : ℕ → Bool) (op : ℕ → OpOutcome α) :
    ℕ → ℕ → ℕ → WrapResult α × ℕ
  | 0, _, n => (WrapResult.retNone, n)
  | fuel+1, attempt, n =>
    if limiter attempt then
      match op n with
      | OpOutcome.ok a => (WrapResult.ret a, n + 1)
      | OpOutcome.err ErrClass.rateLimit => vkWrapGo maxRetries limiter op fuel (attempt+1) (n+1)
      | OpOutcome.err ErrClass.serverErr => vkWrapGo maxRetries limiter op fuel (attempt+1) (n+1)
      | OpOutcome.err ErrClass.other =>
        if attempt = maxRetries - 1 then (WrapResult.raised ErrClass.other, n + 1)
        else vkWrapGo maxRetries limiter op fuel (attempt+1) (n+1)
    else
      vkWrapGo maxRetries limiter op fuel (attempt+1) n

/-- Run the `vk_rate_limit(max_retries)` wrapper around an operation. -/
def vkRateLimitRun (maxRetries : ℕ) (limiter : ℕ → Bool) (op : ℕ → OpOutcome α) :
    WrapResult α × ℕ :=
  vkWrapGo maxRetries limiter op maxRetries 0 0

/-! ### Backup store: `BackupManager.add_scan_result` -/

/-- The backup id computed by `add_scan_result`:
`f"backup_{int(datetime.now().timestamp())}"`. `int()` truncates, which is the
floor for the nonnegative Unix timestamps `datetime.now().timestamp()`
produces; `now` is the clock reading in seconds. -/
def add_scan_result_backup_id (now : ℚ) : String :=
  "backup_" ++ toString ⌊now⌋

/-! ### `NotionClient.safe_update_with_backup` as an event trace -/

/-- Events performed by `safe_update_with_backup`: the backup record creation
(`backup_manager.add_scan_result`) and the `k`-th invocation of `update_func`. -/
inductive SafeEv where
  | backup
  | update (k : ℕ)
deriving DecidableEq

/-- Invocation indices of `update_func` performed by the recovery loop
`for attempt in range(3)`: each attempt invokes once and stops on success
(`fails idx = false`). `idx` is the next invocation index, the second argument
the attempts left. -/
def notionRetryCalls (fails : ℕ → Bool) : ℕ → ℕ → List ℕ
  | _, 0 => []
  | idx, a+1 => idx :: (if fails idx then notionRetryCalls fails (idx+1) a else [])

/-- All invocation indices of `update_func`: the initial `try` invokes once;
only if it raises does the 3-attempt recovery loop run. -/
def safeUpdateCalls (fails : ℕ → Bool) : List ℕ :=
  0 :: (if fails 0 then notionRetryCalls fails 1 3 else [])

/-- The event trace of `safe_update_with_backup`: it first calls
`backup_manager.add_scan_result` (unconditionally), then attempts
`update_func`, retrying on failure. `fails n` says whether the `n`-th
invocation of `update_func` raises. -/
def safe_update_with_backup_trace (fails : ℕ → Bool) : List SafeEv :=
  SafeEv.backup :: (safeUpdateCalls fails).map SafeEv.update

/-! ### Relevance scorer: `calculate_brand_relevance` -/

/-- The trending data computed by `extract_keywords_from_content`: frequency
ranked `(term, count)` lists. -/
structure TrendingData where
  words : List (String × ℕ)
  phrases : List (String × ℕ)
deriving DecidableEq

/-- The result record of `calculate_brand_relevance`. -/
structure RelevanceResult where
  total_relevance : ℕ
  brand_score : ℕ
  trending_word_score : ℕ
  trending_phrase_score : ℕ
  matched_words : List String
  matched_phrases : List String
deriving DecidableEq

/-- `SocialMediaScanner.minimal_brand_filter`. -/
def minimal_brand_filter : List String :=
  ["north sails", "northsails", "норт сейлс"]

/-- `SocialMediaScanner.calculate_brand_relevance`: 5 points per brand keyword
contained in the lower-cased content; per contained trending word add
`min(3, count // 100)` and record it; per contained trending phrase add
`min(5, count // 50)` and record it; `total_relevance` is the sum clamped at
10; the evidence lists are capped at 10 and 5 entries. -/
def calculate_brand_relevance (content : String) (trending_data : TrendingData) :
    RelevanceResult :=
  let content_lower := String.mk (pyLower content.toList)
  let brand_score := 5 * (minimal_brand_filter.filter
    (fun k => strContains content_lower k)).length
  let matchedW := trending_data.words.filter (fun p => strContains content_lower p.1)
  let trending_word_score := (matchedW.map (fun p => min 3 (p.2 / 100))).sum
  let matchedP := trending_data.phrases.filter (fun p => strContains content_lower p.1)
  let trending_phrase_score := (matchedP.map (fun p => min 5 (p.2 / 50))).sum
  { total_relevance := min 10 (brand_score + trending_word_score + trending_phrase_score)
    brand_score := brand_score
    trending_word_score := trending_word_score
    trending_phrase_score := trending_phrase_score
    matched_words := (matchedW.map (fun p => p.1)).take 10
    matched_phrases := (matchedP.map (fun p => p.1)).take 5 }

/-! ### Ranking pipeline: engagement, bonuses, final score, category -/

/-- Telegram total engagement: `views + (forwards * 10)`. -/
def telegram_total_engagement (views forwards : ℕ) : ℕ :=
  views + forwards * 10

/-- Telegram pipeline engagement score:
`min(10, (engagement['total'] // 100) + (len(relevance['matched_words']) * 0.5))`. -/
def telegram_engagement_score (views forwards matched_words_count : ℕ) : ℚ :=
  min 10 (((telegram_total_engagement views forwards / 100 : ℕ) : ℚ)
    + (matched_words_count : ℚ) * (1/2))

/-- VK total engagement:
`likes + (comments * 3) + (reposts * 5) + (views * 0.1)` (a Python float). -/
def vk_total_engagement (likes comments reposts views : ℕ) : ℚ :=
  (likes : ℚ) + (comments : ℚ) * 3 + (reposts : ℚ) * 5 + (views : ℚ) * (1/10)

/-- VK pipeline engagement score:
`min(10, (engagement['total'] // 50) + (len(relevance['matched_words']) * 0.5))`;
float floor-division is `Int.floor` of the quotient. -/
def vk_engagement_score (likes comments reposts views matched_words_count : ℕ) : ℚ :=
  min 10 ((⌊vk_total_engagement likes comments reposts views / 50⌋ : ℚ)
    + (matched_words_count : ℚ) * (1/2))

/-- The spec's engagement formula, stated for comparison with the code:
`engagement_score = min(10, total_engagement // engagement_divisor)` as a
function of the total engagement and the divisor alone. -/
def engagement_score_spec (total_engagement divisor : ℚ) : ℚ :=
  min 10 (⌊total_engagement / divisor⌋ : ℚ)

/-- Priority bonus table (same in both pipelines), default 1:
`{'Critical': 3, 'High': 2, 'Medium': 1, 'Low': 0}.get(priority, 1)`. -/
def priority_bonus (p : String) : ℚ :=
  if p = "Critical" then 3
  else if p = "High" then 2
  else if p = "Medium" then 1
  else if p = "Low" then 0
  else 1

/-- Telegram category bonus table, default 1. -/
def telegram_category_bonus (c : String) : ℚ :=
  if c = "Sailing" then 3
  else if c = "Fashion" then 2
  else if c = "Lifestyle" then 2
  else if c = "Competitor" then 1
  else if c = "Influencer" then 1
  else if c = "News" then 1/2
  else if c = "Brand" then 1
  else 1

/-- VK category bonus table, default 1. -/
def vk_category_bonus (c : String) : ℚ :=
  if c = "Sailing" then 3
  else if c = "Fashion" then 2
  else if c = "Lifestyle" then 2
  else if c = "Competitor" then 1
  else if c = "Influencer" then 1
  else if c = "Brand" then 1
  else if c = "Community" then 1/2
  else 1

/-- The final score of both pipelines:
`min(10, (total_relevance + engagement_score + priority_bonus + category_bonus) / 4)`. -/
def north_sails_score (total_relevance : ℕ) (engagement_score pb cb : ℚ) : ℚ :=
  min 10 (((total_relevance : ℚ) + engagement_score + pb + cb) / 4)

/-- A matched term indicates the marine/sailing domain:
`'яхт' in word or 'sail' in word`. -/
def sailing_word (w : String) : Bool :=
  strContains w "яхт" || strContains w "sail"

/-- A matched term indicates the fashion domain:
`'мод' in word or 'fashion' in word`. -/
def fashion_word (w : String) : Bool :=
  strContains w "мод" || strContains w "fashion"

/-- A matched term indicates the luxury domain:
`'премиум' in word or 'luxury' in word`. -/
def luxury_word (w : String) : Bool :=
  strContains w "премиум" || strContains w "luxury"

/-- Category assignment as coded in both scan pipelines: a fixed-order cascade
over `relevance['matched_words']` only. -/
def assign_category (matched_words : List String) : String :=
  if matched_words.any sailing_word then "sailing"
  else if matched_words.any fashion_word then "fashion"
  else if matched_words.any luxury_word then "luxury"
  else "lifestyle"

/-- Category assignment as the spec words it, stated for comparison with the
code: the same cascade, but consulting both matched words and matched
phrases. -/
def assign_category_spec (matched_words matched_phrases : List String) : String :=
  if matched_words.any sailing_word || matched_phrases.any sailing_word then "sailing"
  else if matched_words.any fashion_word || matched_phrases.any fashion_word then "fashion"
  else if matched_words.any luxury_word || matched_phrases.any luxury_word then "luxury"
  else "lifestyle"

/-! ### Keyword/phrase discovery: `extract_keywords_from_content`

The per-post tokenization in the source is
`content = post.get('content', '').lower()`,
`content = re.sub(r'http\S+|@\w+|#\w+|[^\w\sЀ-ӿ]', ' ', content)`,
`words = re.findall(r'[а-яё\w]{4,}', content)`, and `content.split()` windows
of width 2 and 3 with rendered-length filters. The regex scan is embedded
directly: at each position the alternatives are tried in order (an `http`
token, a `@`-mention, a `#`-hashtag, a disallowed single character), each
match is replaced by one space; `findall` extracts maximal runs of
word-class characters. -/

/-- Greedy `takeWhile` of a regex `+` run. -/
def takeRun (p : Char → Bool) : List Char → List Char
  | [] => []
  | c :: l => if p c then c :: takeRun p l else []

/-- Rest of the input after a greedy regex `+` run. -/
def dropRun (p : Char → Bool) : List Char → List Char
  | [] => []
  | c :: l => if p c then dropRun p l else c :: l

/-- Consuming a run never lengthens the input (used for termination). -/
def dropRun_len (p : Char → Bool) : ∀ l : List Char, (dropRun p l).length ≤ l.length
  | [] => le_rfl
  | c :: l => by
    simp only [dropRun]
    split
    · exact le_trans (dropRun_len p l) (Nat.le_succ _)
    · exact le_rfl

/-- The substitution pass
`re.sub(r'http\S+|@\w+|#\w+|[^\w\sЀ-ӿ]', ' ', content)`:
an `http` followed by at least one non-space consumes the whole non-space
run; `@`/`#` followed by at least one word character consume the word run;
a character that is neither a word character nor whitespace becomes a
space; every match is replaced by a single space. -/
def subScan : List Char → List Char
  | [] => []
  | 'h' :: 't' :: 't' :: 'p' :: c :: rest =>
    if pyIsSpace c then 'h' :: subScan ('t' :: 't' :: 'p' :: c :: rest)
    else ' ' :: subScan (dropRun (fun d => !pyIsSpace d) rest)
  | '@' :: c :: rest =>
    if pyIsWord c then ' ' :: subScan (dropRun pyIsWord rest)
    else ' ' :: subScan (c :: rest)
  | '#' :: c :: rest =>
    if pyIsWord c then ' ' :: subScan (dropRun pyIsWord rest)
    else ' ' :: subScan (c :: rest)
  | c :: rest =>
    if pyIsWord c || pyIsSpace c then c :: subScan rest
    else ' ' :: subScan rest
termination_by l => l.length
decreasing_by
  all_goals simp only [List.length_cons]
  all_goals first
    | omega
    | exact Nat.lt_succ_of_le (dropRun_len _ _)
    | exact lt_of_le_of_lt (dropRun_len _ _) (by omega)

/-- Maximal runs of characters satisfying `p` (the matches of a greedy
character-class `+`/`{4,}` regex, before any length filter). -/
def findRuns (p : Char → Bool) : List Char → List (List Char)
  | [] => []
  | c :: rest =>
    if p c then (c :: takeRun p rest) :: findRuns p (dropRun p rest)
    else findRuns p rest
termination_by l => l.length
decreasing_by
  all_goals simp only [List.length_cons]
  all_goals first
    | omega
    | exact Nat.lt_succ_of_le (dropRun_len _ _)

/-- The normalized content of one post: lower-cased, then the substitution
pass. -/
def normalized (content : String) : List Char :=
  subScan (pyLower content.toList)

/-- `re.findall(r'[а-яё\w]{4,}', content)`: maximal word-character runs of
length at least 4 (after normalization only word characters and spaces
remain, and the class equals the word class). -/
def post_words (content : String) : List String :=
  ((findRuns pyIsWord (normalized content)).filter (fun w => 4 ≤ w.length)).map
    (fun cs => String.mk cs)

/-- `content.split()`: maximal non-whitespace runs. -/
def word_list (content : String) : List String :=
  (findRuns (fun c => !pyIsSpace c) (normalized content)).map (fun cs => String.mk cs)

/-- Adjacent pairs `f"{w[i]} {w[i+1]}"`. -/
def windows2 : List String → List String
  | a :: b :: rest => (a ++ " " ++ b) :: windows2 (b :: rest)
  | _ => []

/-- Adjacent triples `f"{w[i]} {w[i+1]} {w[i+2]}"`. -/
def windows3 : List String → List String
  | a :: b :: c :: rest => (a ++ " " ++ b ++ " " ++ c) :: windows3 (b :: c :: rest)
  | _ => []

/-- The phrases one post contributes: 2-windows longer than 8 characters,
then 3-windows longer than 12 characters. -/
def post_phrases (content : String) : List String :=
  (windows2 (word_list content)).filter (fun ph => 8 < ph.length) ++
    (windows3 (word_list content)).filter (fun ph => 12 < ph.length)

/-- `all_words`: each post's words, concatenated in input order. -/
def all_words (posts : List String) : List String :=
  posts.flatMap post_words

/-- `all_phrases`: each post's phrases, concatenated in input order. -/
def all_phrases (posts : List String) : List String :=
  posts.flatMap post_phrases

/-- Distinct elements in first-seen order (`seen` accumulates what was
already emitted); this is the iteration order of a Python `Counter`. -/
def firstSeenAux : List String → List String → List String
  | _, [] => []
  | seen, a :: l =>
    if a ∈ seen then firstSeenAux seen l else a :: firstSeenAux (a :: seen) l

/-- Distinct elements of `l` in first-seen order. -/
def firstSeen (l : List String) : List String :=
  firstSeenAux [] l

/-- `Counter(l).items()`: each distinct element with its count, in
first-seen order. -/
def counterItems (l : List String) : List (String × ℕ) :=
  (firstSeen l).map (fun x => (x, l.count x))

/-- Stable insertion for descending sort by count: a new element goes before
the first element whose count is less than or equal to its own, so earlier
elements win ties. -/
def stableInsertDesc (a : String × ℕ) : List (String × ℕ) → List (String × ℕ)
  | [] => [a]
  | b :: l => if b.2 ≤ a.2 then a :: b :: l else b :: stableInsertDesc a l

/-- `list.sort(key=lambda x: x[1], reverse=True)`: Python's sort is stable;
stable insertion sort produces the same (unique) stable descending order. -/
def sortCountDesc : List (String × ℕ) → List (String × ℕ)
  | [] => []
  | a :: l => stableInsertDesc a (sortCountDesc l)

/-- The full ranked list for one token stream: count the tokens, keep counts
at least `minf`, sort by count descending (stable) — the value of
`trending_words` / `trending_phrases` before the `[:50]` / `[:30]`
truncation. -/
def trendingAll (tokens : List String) (minf : ℕ) : List (String × ℕ) :=
  sortCountDesc ((counterItems tokens).filter (fun p => decide (minf ≤ p.2)))

/-- `SocialMediaScanner.extract_keywords_from_content` over the posts'
contents: trending words (top 50) and phrases (top 30) with counts at least
`min_frequency`. -/
def extract_keywords_from_content (posts : List String) (min_frequency : ℕ) :
    TrendingData :=
  { words := (trendingAll (all_words posts) min_frequency).take 50
    phrases := (trendingAll (all_phrases posts) min_frequency).take 30 }

/-! ## Theorems -/

/-! ### Helper lemmas for the retry wrapper -/

theorem vkWrapGo_count_le (m : ℕ) (limiter : ℕ → Bool) (op : ℕ → OpOutcome α) :
    ∀ fuel attempt n, (vkWrapGo m limiter op fuel attempt n).2 ≤ n + fuel := by
  intro fuel
  induction fuel with
  | zero => intro attempt n; simp [vkWrapGo]
  | succ f ih =>
    intro attempt n
    simp only [vkWrapGo]
    by_cases h : limiter attempt = true
    · simp only [h, if_true]
      cases hop : op n with
      | ok a => simp
      | err c =>
        cases c with
        | rateLimit => exact (ih (attempt+1) (n+1)).trans (by omega)
        | serverErr => exact (ih (attempt+1) (n+1)).trans (by omega)
        | other =>
          by_cases hl : attempt = m - 1
          · simp [hl]
          · simp only [hl, if_false]
            exact (ih (attempt+1) (n+1)).trans (by omega)
    · simp only [eq_false_of_ne_true h, if_false]
      exact (ih (attempt+1) n).trans (by omega)

theorem vkWrapGo_count_denials (m : ℕ) (limiter : ℕ → Bool) (op : ℕ → OpOutcome α) :
    ∀ j fuel attempt n, (∀ k, attempt ≤ k → k < attempt + j → limiter k = false) →
      (vkWrapGo m limiter op fuel attempt n).2 ≤ n + (fuel - j) := by
  intro j
  induction j with
  | zero =>
    intro fuel attempt n _
    simpa using vkWrapGo_count_le m limiter op fuel attempt n
  | succ j ih =>
    intro fuel attempt n h
    have hd : limiter attempt = false := h attempt le_rfl (by omega)
    cases fuel with
    | zero => simp [vkWrapGo]
    | succ f =>
      have hstep : vkWrapGo m limiter op (f+1) attempt n
          = vkWrapGo m limiter op f (attempt+1) n := by
        simp [vkWrapGo, hd]
      rw [hstep]
      have := ih f (attempt+1) n (by intro k hk1 hk2; exact h k (by omega) (by omega))
      omega

/-! ### Claim C1: engagement score -/

/-- Claim C1 counterexample: the Telegram engagement score is not
`min(10, total_engagement // 100)` as a function of the total engagement
alone — with total engagement 0 and one matched trending word the code yields
`0.5`, not `0`; in particular two posts with identical total engagement get
different engagement scores. -/
theorem engagement_score_not_total_only_cex :
    telegram_engagement_score 0 0 1
        ≠ engagement_score_spec ((telegram_total_engagement 0 0 : ℕ) : ℚ) 100 ∧
    telegram_engagement_score 0 0 0 ≠ telegram_engagement_score 0 0 1 := by
  constructor <;>
    norm_num [telegram_engagement_score, engagement_score_spec,
      telegram_total_engagement, min_def]

/-- Claim C1 (amended): for every document the engagement score equals
`min(10, total_engagement // engagement_divisor + 0.5 * |matched trending words|)`
with divisor 100 for the Telegram pipeline and 50 for the VK pipeline; the
matched-words term also contributes, so the score is not a function of the
caller-supplied total engagement and divisor alone. -/
theorem engagement_score_amended (views forwards likes comments reposts vkviews m : ℕ) :
    telegram_engagement_score views forwards m
        = min 10 (((telegram_total_engagement views forwards / 100 : ℕ) : ℚ) + (m : ℚ) / 2) ∧
    vk_engagement_score likes comments reposts vkviews m
        = min 10 ((⌊vk_total_engagement likes comments reposts vkviews / 50⌋ : ℚ) + (m : ℚ) / 2) := by
  constructor <;>
    simp [telegram_engagement_score, vk_engagement_score, mul_one_div, div_eq_mul_inv]

/-! ### Claim C2: the retry wrapper can swallow the last error -/

/-- Claim C2 (code bug): an operation that raises a rate-limit-classified
error on each of its `max_retries = 3` attempts does not get its last error
re-raised — the wrapper's loop ends and it returns `None` to the caller
(the `raise` branch is only reachable for errors classified as "other"). -/
theorem vk_rate_limit_swallows_final_error :
    vkRateLimitRun 3 (fun _ => true) (fun _ => OpOutcome.err ErrClass.rateLimit)
        = ((WrapResult.retNone : WrapResult ℕ), 3) ∧
    vkRateLimitRun 3 (fun _ => true) (fun _ => OpOutcome.err ErrClass.serverErr)
        = ((WrapResult.retNone : WrapResult ℕ), 3) := ⟨rfl, rfl⟩

/-! ### Claim C3: limiter denials do consume retry attempts -/

/-- Claim C3 counterexample: with `max_retries = 3` and the limiter denying
every check, the wrapped operation — though it would succeed — is invoked 0
times, not the full budget of 3: each denial `continue`s the
`for attempt in range(max_retries)` loop and thereby consumes an attempt. -/
theorem limiter_denial_consumes_attempt_cex :
    vkRateLimitRun 3 (fun _ => false) (fun _ => OpOutcome.ok (0 : ℕ))
        = (WrapResult.retNone, 0) ∧ (0 : ℕ) ≠ 3 := ⟨rfl, by decide⟩

/-- Claim C3 (amended): a denial by the rate limiter consumes a retry-loop
iteration; if the limiter denies the first `d` checks, the wrapped operation
can be invoked at most `max_retries - d` times, not the full `max_retries`
budget. -/
theorem limiter_denials_reduce_attempts (maxRetries d : ℕ) (limiter : ℕ → Bool)
    (op : ℕ → OpOutcome ℕ) (h : ∀ k, k < d → limiter k = false) :
    (vkRateLimitRun maxRetries limiter op).2 ≤ maxRetries - d := by
  have := vkWrapGo_count_denials maxRetries limiter op d maxRetries 0 0
    (by intro k _ hk2; exact h k (by omega))
  simpa [vkRateLimitRun] using this

/-- Witness for `limiter_denials_reduce_attempts` at `max_retries = 3`,
`d = 2`. -/
theorem limiter_denials_reduce_attempts_witness :
    (vkRateLimitRun 3 (fun k => decide (2 ≤ k)) (fun _ => OpOutcome.ok (0 : ℕ))).2 ≤ 3 - 2 :=
  limiter_denials_reduce_attempts 3 2 _ _ (by decide)

/-! ### Claim C4: backup ids collide within one second -/

/-- Claim C4 (code bug): two `add_scan_result` calls 0.8 s apart, both within
Unix second 1000, produce the same `backup_id` (`"backup_1000"`), because the
id keeps only `int(datetime.now().timestamp())`. -/
theorem add_scan_result_backup_id_collision :
    add_scan_result_backup_id (10001/10) = add_scan_result_backup_id (10009/10) ∧
    (10001/10 : ℚ) ≠ 10009/10 ∧ (10009/10 - 10001/10 : ℚ) < 1 := by
  refine ⟨?_, by norm_num, by norm_num⟩
  have h1 : (⌊(10001/10 : ℚ)⌋ : ℤ) = 1000 := by norm_num
  have h2 : (⌊(10009/10 : ℚ)⌋ : ℤ) = 1000 := by norm_num
  unfold add_scan_result_backup_id
  rw [h1, h2]

/-! ### Claim C5: the backup happens before any persistence attempt -/

/-- Claim C5: in every execution of `safe_update_with_backup`, every
invocation of `update_func` is preceded in the event trace by the backup
record creation — external persistence is never attempted before the backup
exists. -/
theorem backup_precedes_persistence (fails : ℕ → Bool) (i k : ℕ)
    (h : (safe_update_with_backup_trace fails).get? i = some (SafeEv.update k)) :
    ∃ j, j < i ∧ (safe_update_with_backup_trace fails).get? j = some SafeEv.backup := by
  cases i with
  | zero => simp [safe_update_with_backup_trace] at h
  | succ i => exact ⟨0, by omega, rfl⟩

/-- Witness for `backup_precedes_persistence`: when every `update_func`
invocation fails, the first `update` event (index 1) is preceded by the
backup event. -/
theorem backup_precedes_persistence_witness :
    ∃ j, j < 1 ∧
      (safe_update_with_backup_trace (fun _ => true)).get? j = some SafeEv.backup :=
  backup_precedes_persistence (fun _ => true) 1 0 rfl

/-! ### Claim C8: the rate limiter's allow check -/

/-- Claim C8: `can_make_request` returns `(False, 60)` whenever the per-minute
counter has reached 100 within the current one-minute window; otherwise, when
less than 0.35 s have elapsed since the last recorded call, it returns
`(False, 0.35 - elapsed)`; otherwise it returns `(True, 0)`. -/
theorem can_make_request_spec (st : VKRateLimiterKey) (now : ℚ) :
    (quota_reached st now → (can_make_request st now).2 = (false, 60)) ∧
    (¬ quota_reached st now → spacing_blocked st now →
      (can_make_request st now).2 = (false, spacing_wait st now)) ∧
    (¬ quota_reached st now → ¬ spacing_blocked st now →
      (can_make_request st now).2 = (true, 0)) := by
  obtain ⟨lr, cnt, rt⟩ := st
  refine ⟨?_, ?_, ?_⟩
  · intro hq
    cases rt with
    | none => simp [quota_reached] at hq
    | some rt =>
      simp only [quota_reached] at hq
      obtain ⟨hin, hcnt⟩ := hq
      have hw : ¬ (60 < now - rt) := by linarith
      simp [can_make_request, hw, hcnt]
  · intro hnq hs
    cases lr with
    | none => simp [spacing_blocked] at hs
    | some lr =>
      simp only [spacing_blocked] at hs
      cases rt with
      | none => simp [can_make_request, spacing_wait, hs]
      | some rt =>
        by_cases hw : 60 < now - rt
        · simp [can_make_request, spacing_wait, hw, hs]
        · have h60 : now - rt ≤ 60 := by linarith
          simp only [quota_reached] at hnq
          have hc : ¬ (100 ≤ cnt) := fun hcnt => hnq ⟨h60, hcnt⟩
          simp [can_make_request, spacing_wait, hw, hc, hs]
  · intro hnq hns
    cases rt with
    | none =>
      cases lr with
      | none => simp [can_make_request]
      | some lr =>
        simp only [spacing_blocked] at hns
        simp [can_make_request, hns]
    | some rt =>
      by_cases hw : 60 < now - rt
      · cases lr with
        | none => simp [can_make_request, hw]
        | some lr =>
          simp only [spacing_blocked] at hns
          simp [can_make_request, hw, hns]
      · have h60 : now - rt ≤ 60 := by linarith
        simp only [quota_reached] at hnq
        have hc : ¬ (100 ≤ cnt) := fun hcnt => hnq ⟨h60, hcnt⟩
        cases lr with
        | none => simp [can_make_request, hw, hc]
        | some lr =>
          simp only [spacing_blocked] at hns
          simp [can_make_request, hw, hc, hns]

/-- Witness for `can_make_request_spec`: a key at its quota inside the window
is denied with wait 60; a key checked 0.1 s after its last call is denied
with wait `0.25`; a key checked 1 s after its last call with counter 0 is
permitted. -/
theorem can_make_request_spec_witness :
    (can_make_request ⟨some 0, 100, some 0⟩ 1).2 = (false, 60) ∧
    (can_make_request ⟨some 0, 0, some 0⟩ (1/10)).2 = (false, 1/4) ∧
    (can_make_request ⟨some 0, 0, some 0⟩ 1).2 = (true, 0) := by
  refine ⟨(can_make_request_spec _ _).1 ?_, ?_, (can_make_request_spec _ _).2.2 ?_ ?_⟩
  · simp only [quota_reached]; norm_num
  · have h := (can_make_request_spec ⟨some 0, 0, some 0⟩ (1/10)).2.1
      (by simp only [quota_reached]; norm_num) (by simp only [spacing_blocked]; norm_num)
    rw [h]
    norm_num [spacing_wait]
  · simp only [quota_reached]; norm_num
  · simp only [spacing_blocked]; norm_num

/-! ### Claim C6: the category cascade ignores matched phrases -/

/-- Claim C6 counterexample: a post whose only trending evidence is the
matched phrase `"sail away"` (which indicates sailing) is assigned the
default `"lifestyle"` category — the coded cascade consults
`relevance['matched_words']` only, while the claim's cascade (consulting
phrases too) would assign `"sailing"`. -/
theorem assign_category_ignores_phrases_cex :
    (calculate_brand_relevance "sail away" ⟨[], [("sail away", 100)]⟩).matched_words = [] ∧
    (calculate_brand_relevance "sail away" ⟨[], [("sail away", 100)]⟩).matched_phrases
        = ["sail away"] ∧
    assign_category
        (calculate_brand_relevance "sail away" ⟨[], [("sail away", 100)]⟩).matched_words
        = "lifestyle" ∧
    assign_category_spec
        (calculate_brand_relevance "sail away" ⟨[], [("sail away", 100)]⟩).matched_words
        (calculate_brand_relevance "sail away" ⟨[], [("sail away", 100)]⟩).matched_phrases
        = "sailing" := by
  refine ⟨?_, ?_, ?_, ?_⟩ <;> rfl

/-- Claim C6 (amended): the assigned category is a fixed-order cascade over
the matched words alone (matched phrases are never consulted): sailing if
any matched word indicates the marine/sailing domain, else fashion, else
luxury, else the default lifestyle category; the first matching rule wins. -/
theorem assign_category_cascade (ws : List String) :
    (assign_category ws = "sailing" ↔ ∃ w ∈ ws, sailing_word w = true) ∧
    (assign_category ws = "fashion" ↔
      (¬ ∃ w ∈ ws, sailing_word w = true) ∧ ∃ w ∈ ws, fashion_word w = true) ∧
    (assign_category ws = "luxury" ↔
      (¬ ∃ w ∈ ws, sailing_word w = true) ∧ (¬ ∃ w ∈ ws, fashion_word w = true) ∧
        ∃ w ∈ ws, luxury_word w = true) ∧
    (assign_category ws = "lifestyle" ↔
      (¬ ∃ w ∈ ws, sailing_word w = true) ∧ (¬ ∃ w ∈ ws, fashion_word w = true) ∧
        ¬ ∃ w ∈ ws, luxury_word w = true) := by
  simp only [← List.any_eq_true]
  cases hs : ws.any sailing_word <;> cases hf : ws.any fashion_word <;>
    cases hl : ws.any luxury_word <;>
      simp [assign_category, hs, hf, hl]

/-! ### Claim C7: clamping invariants -/

theorem telegram_engagement_score_nonneg (v f m : ℕ) :
    0 ≤ telegram_engagement_score v f m := by
  unfold telegram_engagement_score
  refine le_min (by norm_num) ?_
  positivity

theorem vk_total_engagement_nonneg (l c r v : ℕ) :
    0 ≤ vk_total_engagement l c r v := by
  unfold vk_total_engagement
  positivity

theorem vk_engagement_score_nonneg (l c r v m : ℕ) :
    0 ≤ vk_engagement_score l c r v m := by
  unfold vk_engagement_score
  refine le_min (by norm_num) (add_nonneg ?_ (by positivity))
  have h : (0 : ℚ) ≤ vk_total_engagement l c r v / 50 :=
    div_nonneg (vk_total_engagement_nonneg l c r v) (by norm_num)
  exact_mod_cast Int.floor_nonneg.mpr h

theorem priority_bonus_nonneg (p : String) : 0 ≤ priority_bonus p := by
  unfold priority_bonus
  split_ifs <;> norm_num

theorem telegram_category_bonus_nonneg (c : String) : 0 ≤ telegram_category_bonus c := by
  unfold telegram_category_bonus
  split_ifs <;> norm_num

theorem vk_category_bonus_nonneg (c : String) : 0 ≤ vk_category_bonus c := by
  unfold vk_category_bonus
  split_ifs <;> norm_num

theorem north_sails_score_nonneg (t : ℕ) (e p c : ℚ)
    (he : 0 ≤ e) (hp : 0 ≤ p) (hc : 0 ≤ c) :
    0 ≤ north_sails_score t e p c := by
  unfold north_sails_score
  refine le_min (by norm_num) (div_nonneg ?_ (by norm_num))
  have ht : (0 : ℚ) ≤ (t : ℚ) := Nat.cast_nonneg t
  linarith

/-- Claim C7: the computed scores are clamped: `total_relevance` lies in
`[0, 10]` and equals `min(10, brand_score + trending_word_score +
trending_phrase_score)`, and the final score of either pipeline lies in
`[0, 10]` and equals `min(10, (total_relevance + engagement_score +
priority_bonus + category_bonus) / 4)`, for every text, trending set,
engagement counters, and priority/category strings. -/
theorem scores_clamped (content : String) (td : TrendingData)
    (views forwards likes comments reposts vkviews : ℕ) (pr cat : String) :
    (0 ≤ (calculate_brand_relevance content td).total_relevance ∧
      (calculate_brand_relevance content td).total_relevance ≤ 10 ∧
      (calculate_brand_relevance content td).total_relevance
        = min 10 ((calculate_brand_relevance content td).brand_score
            + (calculate_brand_relevance content td).trending_word_score
            + (calculate_brand_relevance content td).trending_phrase_score)) ∧
    (0 ≤ north_sails_score (calculate_brand_relevance content td).total_relevance
          (telegram_engagement_score views forwards
            (calculate_brand_relevance content td).matched_words.length)
          (priority_bonus pr) (telegram_category_bonus cat) ∧
      north_sails_score (calculate_brand_relevance content td).total_relevance
          (telegram_engagement_score views forwards
            (calculate_brand_relevance content td).matched_words.length)
          (priority_bonus pr) (telegram_category_bonus cat) ≤ 10 ∧
      north_sails_score (calculate_brand_relevance content td).total_relevance
          (telegram_engagement_score views forwards
            (calculate_brand_relevance content td).matched_words.length)
          (priority_bonus pr) (telegram_category_bonus cat)
        = min 10 ((((calculate_brand_relevance content td).total_relevance : ℚ)
            + telegram_engagement_score views forwards
                (calculate_brand_relevance content td).matched_words.length
            + priority_bonus pr + telegram_category_bonus cat) / 4)) ∧
    (0 ≤ north_sails_score (calculate_brand_relevance content td).total_relevance
          (vk_engagement_score likes comments reposts vkviews
            (calculate_brand_relevance content td).matched_words.length)
          (priority_bonus pr) (vk_category_bonus cat) ∧
      north_sails_score (calculate_brand_relevance content td).total_relevance
          (vk_engagement_score likes comments reposts vkviews
            (calculate_brand_relevance content td).matched_words.length)
          (priority_bonus pr) (vk_category_bonus cat) ≤ 10) := by
  refine ⟨⟨Nat.zero_le _, ?_, rfl⟩, ⟨?_, ?_, rfl⟩, ⟨?_, ?_⟩⟩
  · exact min_le_left _ _
  · exact north_sails_score_nonneg _ _ _ _
      (telegram_engagement_score_nonneg _ _ _) (priority_bonus_nonneg _)
      (telegram_category_bonus_nonneg _)
  · exact min_le_left _ _
  · exact north_sails_score_nonneg _ _ _ _
      (vk_engagement_score_nonneg _ _ _ _ _) (priority_bonus_nonneg _)
      (vk_category_bonus_nonneg _)
  · exact min_le_left _ _

/-! ### Helper lemmas for discovery -/

theorem firstSeenAux_mem (a : String) :
    ∀ (l seen : List String), a ∈ firstSeenAux seen l ↔ a ∈ l ∧ a ∉ seen := by
  intro l
  induction l with
  | nil => intro seen; simp [firstSeenAux]
  | cons b t ih =>
    intro seen
    by_cases hb : b ∈ seen
    · rw [show firstSeenAux seen (b :: t) = firstSeenAux seen t from by
        simp [firstSeenAux, hb]]
      rw [ih seen]
      constructor
      · rintro ⟨h1, h2⟩; exact ⟨List.mem_cons_of_mem b h1, h2⟩
      · rintro ⟨h1, h2⟩
        rcases List.mem_cons.mp h1 with h1 | h1
        · exact absurd (h1 ▸ hb) h2
        · exact ⟨h1, h2⟩
    · rw [show firstSeenAux seen (b :: t) = b :: firstSeenAux (b :: seen) t from by
        simp [firstSeenAux, hb]]
      rw [List.mem_cons, ih (b :: seen)]
      constructor
      · rintro (h | ⟨h1, h2⟩)
        · subst h; exact ⟨List.mem_cons_self a t, hb⟩
        · exact ⟨List.mem_cons_of_mem b h1, fun hs => h2 (List.mem_cons_of_mem b hs)⟩
      · rintro ⟨h1, h2⟩
        rcases List.mem_cons.mp h1 with h1 | h1
        · exact Or.inl h1
        · by_cases hab : a = b
          · exact Or.inl hab
          · refine Or.inr ⟨h1, fun hs => ?_⟩
            rcases List.mem_cons.mp hs with hs | hs
            · exact hab hs
            · exact h2 hs

theorem firstSeenAux_nodup :
    ∀ (l seen : List String), (firstSeenAux seen l).Nodup := by
  intro l
  induction l with
  | nil => intro seen; simp [firstSeenAux]
  | cons b t ih =>
    intro seen
    by_cases hb : b ∈ seen
    · rw [show firstSeenAux seen (b :: t) = firstSeenAux seen t from by
        simp [firstSeenAux, hb]]
      exact ih seen
    · rw [show firstSeenAux seen (b :: t) = b :: firstSeenAux (b :: seen) t from by
        simp [firstSeenAux, hb]]
      rw [List.nodup_cons]
      refine ⟨fun hmem => ?_, ih (b :: seen)⟩
      exact ((firstSeenAux_mem b t (b :: seen)).mp hmem).2 (List.mem_cons_self b seen)

theorem firstSeen_mem (a : String) (l : List String) : a ∈ firstSeen l ↔ a ∈ l := by
  rw [firstSeen, firstSeenAux_mem]
  simp

theorem firstSeen_nodup (l : List String) : (firstSeen l).Nodup :=
  firstSeenAux_nodup l []

theorem firstSeen_perm {l₁ l₂ : List String} (h : l₁.Perm l₂) :
    (firstSeen l₁).Perm (firstSeen l₂) := by
  rw [List.perm_ext_iff_of_nodup (firstSeen_nodup l₁) (firstSeen_nodup l₂)]
  intro a
  rw [firstSeen_mem, firstSeen_mem]
  exact h.mem_iff

theorem counterItems_perm {l₁ l₂ : List String} (h : l₁.Perm l₂) :
    (counterItems l₁).Perm (counterItems l₂) := by
  unfold counterItems
  have hf : (fun x => (x, l₁.count x)) = fun x => (x, l₂.count x) := by
    funext x
    rw [List.Perm.count_eq h]
  rw [hf]
  exact (firstSeen_perm h).map _

theorem counterItems_mem {l : List String} {p : String × ℕ} (hp : p ∈ counterItems l) :
    p.1 ∈ l ∧ p.2 = l.count p.1 := by
  unfold counterItems at hp
  obtain ⟨x, hx, he⟩ := List.mem_map.mp hp
  cases he
  exact ⟨(firstSeen_mem x l).mp hx, rfl⟩

theorem stableInsertDesc_perm (a : String × ℕ) (l : List (String × ℕ)) :
    (stableInsertDesc a l).Perm (a :: l) := by
  induction l with
  | nil => exact List.Perm.refl _
  | cons b t ih =>
    unfold stableInsertDesc
    split
    · exact List.Perm.refl _
    · exact (List.Perm.cons b ih).trans (List.Perm.swap a b t)

theorem sortCountDesc_perm (l : List (String × ℕ)) : (sortCountDesc l).Perm l := by
  induction l with
  | nil => exact List.Perm.refl _
  | cons a t ih => exact (stableInsertDesc_perm a (sortCountDesc t)).trans (List.Perm.cons a ih)

theorem trendingAll_perm {t₁ t₂ : List String} (h : t₁.Perm t₂) (minf : ℕ) :
    (trendingAll t₁ minf).Perm (trendingAll t₂ minf) := by
  unfold trendingAll
  exact (sortCountDesc_perm _).trans
    (((counterItems_perm h).filter _).trans (sortCountDesc_perm _).symm)

theorem filter_stableInsertDesc (a : String × ℕ) (l : List (String × ℕ)) (c : ℕ) :
    (stableInsertDesc a l).filter (fun p => p.2 == c)
      = (if a.2 == c then [a] else []) ++ l.filter (fun p => p.2 == c) := by
  induction l with
  | nil =>
    simp only [stableInsertDesc, List.filter]
    split <;> simp_all
  | cons b t ih =>
    unfold stableInsertDesc
    by_cases hba : b.2 ≤ a.2
    · simp only [if_pos hba, List.filter]
      split <;> simp_all
    · simp only [if_neg hba, List.filter_cons, ih]
      by_cases hbc : (b.2 == c) = true
      · have hac : ¬ (a.2 == c) = true := by
          intro hac'
          have h1 : a.2 = c := by simpa using hac'
          have h2 : b.2 = c := by simpa using hbc
          omega
        simp [hbc, hac]
      · simp [hbc]

theorem filter_sortCountDesc (l : List (String × ℕ)) (c : ℕ) :
    (sortCountDesc l).filter (fun p => p.2 == c) = l.filter (fun p => p.2 == c) := by
  induction l with
  | nil => rfl
  | cons a t ih =>
    show (stableInsertDesc a (sortCountDesc t)).filter (fun p => p.2 == c) = _
    rw [filter_stableInsertDesc, ih, List.filter_cons]
    split <;> simp

theorem trendingAll_eq_nil {tokens : List String} {minf : ℕ}
    (h : ∀ t ∈ tokens, tokens.count t < minf) : trendingAll tokens minf = [] := by
  unfold trendingAll
  have hnil : (counterItems tokens).filter (fun p => decide (minf ≤ p.2)) = [] := by
    rw [List.filter_eq_nil_iff]
    intro p hp
    obtain ⟨h1, h2⟩ := counterItems_mem hp
    have := h p.1 h1
    simp only [decide_eq_true_eq]
    omega
  rw [hnil]
  rfl

/-! ### Claim C9: discovery is order-independent with first-seen tie-break -/

/-- Claim C9: permuting the input batch permutes nothing essential — the
pre-truncation trending word and phrase lists contain exactly the same
`(term, count)` pairs (they are permutations of each other); and discovery
is deterministic with ties broken by first-seen order: for every count `c`,
the equal-count entries of the sorted list appear exactly in the order of
`counterItems` (first-seen order of the token stream, which follows input
order), restricted to counts above the threshold. -/
theorem discovery_order_independent (posts1 posts2 : List String) (minf : ℕ)
    (h : posts1.Perm posts2) :
    (trendingAll (all_words posts1) minf).Perm (trendingAll (all_words posts2) minf) ∧
    (trendingAll (all_phrases posts1) minf).Perm (trendingAll (all_phrases posts2) minf) ∧
    (∀ c : ℕ, (trendingAll (all_words posts1) minf).filter (fun p => p.2 == c)
        = ((counterItems (all_words posts1)).filter
            (fun p => decide (minf ≤ p.2))).filter (fun p => p.2 == c)) ∧
    (∀ c : ℕ, (trendingAll (all_phrases posts1) minf).filter (fun p => p.2 == c)
        = ((counterItems (all_phrases posts1)).filter
            (fun p => decide (minf ≤ p.2))).filter (fun p => p.2 == c)) := by
  refine ⟨trendingAll_perm (h.flatMap_right post_words) minf,
    trendingAll_perm (h.flatMap_right post_phrases) minf,
    fun c => ?_, fun c => ?_⟩ <;>
  · unfold trendingAll
    exact filter_sortCountDesc _ c

/-- Witness for `discovery_order_independent` on the two-post batch
`["aaaa", "bbbb"]` and its transposition, with threshold 1 and count 1. -/
theorem discovery_order_independent_witness :
    (trendingAll (all_words ["aaaa", "bbbb"]) 1).Perm
      (trendingAll (all_words ["bbbb", "aaaa"]) 1) ∧
    (trendingAll (all_words ["aaaa", "bbbb"]) 1).filter (fun p => p.2 == 1)
      = ((counterItems (all_words ["aaaa", "bbbb"])).filter
          (fun p => decide (1 ≤ p.2))).filter (fun p => p.2 == 1) := by
  have h := discovery_order_independent ["aaaa", "bbbb"] ["bbbb", "aaaa"] 1
    (List.Perm.swap "bbbb" "aaaa" [])
  exact ⟨h.1, h.2.2.1 1⟩

/-! ### Claim C10: below-threshold discovery is empty and scores nothing -/

/-- Claim C10: whenever no word and no phrase reaches the frequency
threshold (in particular for the empty batch), `extract_keywords_from_content`
returns empty `words` and `phrases` lists, and `calculate_brand_relevance`
against that trending set yields trending word and phrase scores 0 for every
text. -/
theorem discovery_empty_threshold (posts : List String) (minf : ℕ) (content : String)
    (hw : ∀ t ∈ all_words posts, (all_words posts).count t < minf)
    (hp : ∀ t ∈ all_phrases posts, (all_phrases posts).count t < minf) :
    extract_keywords_from_content posts minf = ⟨[], []⟩ ∧
    (calculate_brand_relevance content
      (extract_keywords_from_content posts minf)).trending_word_score = 0 ∧
    (calculate_brand_relevance content
      (extract_keywords_from_content posts minf)).trending_phrase_score = 0 := by
  have he : extract_keywords_from_content posts minf = ⟨[], []⟩ := by
    unfold extract_keywords_from_content
    rw [trendingAll_eq_nil hw, trendingAll_eq_nil hp]
    simp
  refine ⟨he, ?_, ?_⟩ <;> rw [he] <;> rfl

/-- Witness for `discovery_empty_threshold` on the empty batch with the
default threshold 100. -/
theorem discovery_empty_threshold_witness :
    extract_keywords_from_content [] 100 = ⟨[], []⟩ ∧
    (calculate_brand_relevance "hello"
      (extract_keywords_from_content [] 100)).trending_word_score = 0 ∧
    (calculate_brand_relevance "hello"
      (extract_keywords_from_content [] 100)).trending_phrase_score = 0 :=
  discovery_empty_threshold [] 100 "hello" (by simp [all_words]) (by simp [all_phrases])
